import Mathlib

/-!
# Conversion between `wpi::json` trees and Python objects

A shallow embedding of `pyjson::from_json` and `pyjson::to_json` from
`wpiutil/src/type_casters/wpi_json_type_caster.h`, together with the Python
object model and the JSON tree model these two functions traverse.
-/

namespace pyjson

/-- A C `double`, carried as its IEEE-754 bit pattern. Neither conversion
function inspects or alters the bits. -/
structure Double where
  bits : Nat
  deriving DecidableEq, Repr

/-- Modelled from the spec: the `wpi::json` tree type is not part of this
file. A tagged union over null, boolean, unsigned integer (`uint64_t`),
signed integer (`int64_t`), float, string, ordered array of nodes, and an
object mapping string keys to nodes, insertion order preserved, keys
unique. Strings and keys are Unicode text; the integer payloads are the
mathematical values of the stored `uint64_t` and `int64_t`. -/
inductive Json where
  | null
  | boolean (b : Bool)
  | number_unsigned (n : Nat)
  | number_integer (n : Int)
  | number_float (f : Double)
  | string (s : String)
  | array (elems : List Json)
  | object (members : List (String × Json))

/-- A Python object as seen through the checks `to_json` performs
(`is_none`, `PyBool_Check`, `PyLong_Check`, `PyFloat_Check`,
`PyUnicode_Check`, `PyTuple_Check`, `PyList_Check`, `PyDict_Check`).
A `dict` lists its entries in iteration order. `other` is an object that
passes none of the checks; it carries its type's `__name__` and an identity
tag. -/
inductive PyObj where
  | none
  | bool (b : Bool)
  | int (n : Int)
  | float (f : Double)
  | str (s : String)
  | tuple (elems : List PyObj)
  | list (elems : List PyObj)
  | dict (entries : List (PyObj × PyObj))
  | other (typeName : String) (ident : Nat)

/-- The C++ exceptions that leave `to_json`. `value_error` and `type_error`
are nanobind's `builtin_exception`s; `python_error` wraps an exception raised
by the Python runtime itself, with the exception's type name and message. -/
inductive PyErr where
  | value_error (msg : String)
  | type_error (msg : String)
  | python_error (excType : String) (msg : String)
  deriving DecidableEq, Repr

/-- What the Python runtime supplies and this file only calls.
* `float_repr`: the text of a float.
* `object_repr`: the outcome of `repr` on objects that are not none, bool, int
  or float; it can raise.
* `isinstance_arg2_msg`: the message of the `TypeError` that `isinstance`
  raises when its second argument is not a class.
* `int_max_str_digits`: the limit on the number of decimal digits in a
  conversion between int and str (`sys.get_int_max_str_digits()`, 4300 unless
  changed); 0 switches the limit off and the runtime accepts no other value
  under 640.
* `int_max_str_digits_msg`: the message of the `ValueError` raised when an int
  has more digits than the limit.
* `int_is_cached`, `str_is_cached`: whether the runtime holds a reference of
  its own to the int or str object it hands out for this value (the small
  ints and the short strings it keeps as shared objects), so that the object
  stays alive when the caller drops its reference. -/
structure Runtime where
  float_repr : Double → String
  object_repr : PyObj → Except PyErr String
  isinstance_arg2_msg : String
  int_max_str_digits : Nat
  int_max_str_digits_ok : int_max_str_digits = 0 ∨ 640 ≤ int_max_str_digits
  int_max_str_digits_msg : String
  int_is_cached : Int → Bool
  str_is_cached : String → Bool

/-- Whether the runtime refuses to write the int `n` in decimal: the limit is
on and `n` has more digits than it allows, i.e. `|n| ≥ 10 ^ limit`. -/
def int_str_refused (rt : Runtime) (n : Int) : Bool :=
  rt.int_max_str_digits != 0 && decide (10 ^ rt.int_max_str_digits ≤ n.natAbs)

/-- The call `nb::repr(obj)`, Python's `repr(obj)`: `None`, `True`/`False` and
decimal integers are fixed by the language, the rest comes from the runtime.
The call throws `python_error` when the runtime raises, as it does with
`ValueError` for an int over the digit limit. -/
def repr (rt : Runtime) : PyObj → Except PyErr String
  | .none => .ok "None"
  | .bool true => .ok "True"
  | .bool false => .ok "False"
  | .int n =>
    if int_str_refused rt n then .error (.python_error "ValueError" rt.int_max_str_digits_msg)
    else .ok (toString n)
  | .float f => .ok (rt.float_repr f)
  | o => rt.object_repr o

/-- The call `nb::str(obj)`, Python's `str(obj)`: a string is itself, every
other object falls back to its `repr`, with the same ways of raising. -/
def str (rt : Runtime) : PyObj → Except PyErr String
  | .str s => .ok s
  | o => repr rt o

/-- The template check `nb::isinstance<nb::str>(h)`, i.e. `PyUnicode_Check`. -/
def isinstance_str : PyObj → Bool
  | .str _ => true
  | _ => false

/-- The template check `nb::isinstance<nb::int_>(h)`, i.e. `PyLong_Check`; a
Python bool is an instance of int. -/
def isinstance_int : PyObj → Bool
  | .int _ => true
  | .bool _ => true
  | _ => false

/-- The template check `nb::isinstance<nb::float_>(h)`, i.e. `PyFloat_Check`. -/
def isinstance_float : PyObj → Bool
  | .float _ => true
  | _ => false

/-- The template check `nb::isinstance<nb::bool_>(h)`, i.e. `PyBool_Check`. -/
def isinstance_bool : PyObj → Bool
  | .bool _ => true
  | _ => false

/-- The template check `nb::isinstance<nb::tuple>(h)`, i.e. `PyTuple_Check`. -/
def isinstance_tuple : PyObj → Bool
  | .tuple _ => true
  | _ => false

/-- The template check `nb::isinstance<nb::list>(h)`, i.e. `PyList_Check`. -/
def isinstance_list : PyObj → Bool
  | .list _ => true
  | _ => false

/-- The template check `nb::isinstance<nb::dict>(h)`, i.e. `PyDict_Check`. -/
def isinstance_dict : PyObj → Bool
  | .dict _ => true
  | _ => false

/-- The test `obj.is_none()`. -/
def is_none : PyObj → Bool
  | .none => true
  | _ => false

/-- The call `nb::cast<bool>(obj)` on an object that passed `PyBool_Check`. -/
def cast_bool : PyObj → Bool
  | .bool b => b
  | _ => false

/-- The mathematical value of an object that passed `PyLong_Check`: an int is
its value, `True` is 1 and `False` is 0. -/
def int_value : PyObj → Int
  | .int n => n
  | .bool true => 1
  | _ => 0

/-- The call `nb::cast<double>(obj)` on an object that passed `PyFloat_Check`. -/
def cast_double : PyObj → Double
  | .float f => f
  | _ => ⟨0⟩

/-- The call `nb::cast<std::string>(obj)` on an object that passed
`PyUnicode_Check`. -/
def cast_string : PyObj → String
  | .str s => s
  | _ => ""

/-- The expression `obj.type().attr("__name__")`. -/
def type_name : PyObj → String
  | .none => "NoneType"
  | .bool _ => "bool"
  | .int _ => "int"
  | .float _ => "float"
  | .str _ => "str"
  | .tuple _ => "tuple"
  | .list _ => "list"
  | .dict _ => "dict"
  | .other typeName _ => typeName

/-- The two-argument call `nb::isinstance(inst, nb::none())` of line 169. This
overload forwards to the runtime's `PyObject_IsInstance(inst, cls)` and throws
`python_error` when that call reports an error. The runtime accepts only a
class, a tuple of classes or a union as `cls`; the `None` singleton is none of
these, so the call raises `TypeError` whatever `inst` is. -/
def isinstance_none (rt : Runtime) (_inst : PyObj) : Except PyErr Bool :=
  .error (.python_error "TypeError" rt.isinstance_arg2_msg)

/-- The object graph that `from_json` builds and returns. It has the shape of
a `PyObj`, with two differences that come from the way it is built. A dict
only has the str keys `from_json` creates, given here by their text. A list
records, slot by slot, the object whose address `NB_LIST_SET_ITEM` stored
(lines 83-84): the macro takes over a reference without adding one, and the
owning `nb::object o` releases its reference when the loop body ends, so the
slot owns no reference to the object it points at. -/
inductive Decoded where
  | none
  | bool (b : Bool)
  | int (n : Int)
  | float (f : Double)
  | str (s : String)
  | list (slots : List Decoded)
  | dict (entries : List (String × Decoded))

/-- The assignment `obj[nb::str(key)] = value` on the dict being built: the
value of an entry whose key has the same text is replaced in place,
otherwise a new entry is appended. The dict takes references of its own to
key and value. -/
def dict_setitem : List (String × Decoded) → String → Decoded → List (String × Decoded)
  | [], key, value => [(key, value)]
  | (k, v) :: rest, key, value =>
    if k = key then (k, value) :: rest else (k, v) :: dict_setitem rest key value

/-- Modelled from the spec: keyed assignment `out[key] = value` on a JSON
object (insertion order preserved, keys unique): an existing member keeps its
place and takes the new value, a new key is appended. -/
def json_setitem : List (String × Json) → String → Json → List (String × Json)
  | [], key, value => [(key, value)]
  | (k, v) :: rest, key, value =>
    if k = key then (k, value) :: rest else (k, v) :: json_setitem rest key value

mutual
/-- Embedding of `pyjson::from_json` (lines 51-98). -/
def from_json : Json → Decoded
  | .null => .none
  | .boolean b => .bool b
  | .number_unsigned n => .int (n : Int)
  | .number_integer n => .int n
  | .number_float f => .float f
  | .string s => .str s
  | .array elems => .list (from_json_array elems)
  | .object members => .dict (from_json_object members [])
/-- The array loop of `from_json` (lines 80-85): slot `i` of the new list
receives the address of the object `from_json(j[i])` returned in `o`, and `o`
then releases the only reference taken for it. -/
def from_json_array : List Json → List Decoded
  | [] => []
  | j :: rest => from_json j :: from_json_array rest
/-- The object loop of `from_json` (lines 90-95), run on the members still to
visit and the dict built so far. -/
def from_json_object : List (String × Json) → List (String × Decoded) → List (String × Decoded)
  | [], obj => obj
  | (key, value) :: rest, obj => from_json_object rest (dict_setitem obj key (from_json value))
end

/-- Whether the object in a list slot is still alive after `o` released its
reference. `None`, `True` and `False` always are; an int or str is when the
runtime keeps that object as a shared one; a float, list or dict was
allocated for this call alone, so the release deallocated it and the slot
points at freed memory. A slot whose object is alive still owns no reference
to it. -/
def slot_alive (rt : Runtime) : Decoded → Bool
  | .none => true
  | .bool _ => true
  | .int n => rt.int_is_cached n
  | .str s => rt.str_is_cached s
  | .float _ => false
  | .list _ => false
  | .dict _ => false

mutual
/-- The Python object that a reader of the decoded graph finds, when every
list slot in it still points at a live object. A graph with a slot that
points at freed memory is no Python object, and reading it is undefined
behaviour (here `none`). -/
def decoded_object (rt : Runtime) : Decoded → Option PyObj
  | .none => some .none
  | .bool b => some (.bool b)
  | .int n => some (.int n)
  | .float f => some (.float f)
  | .str s => some (.str s)
  | .list slots => (decoded_slots rt slots).map PyObj.list
  | .dict entries => (decoded_entries rt entries).map PyObj.dict
/-- The elements a reader finds in the slots of a decoded list. -/
def decoded_slots (rt : Runtime) : List Decoded → Option (List PyObj)
  | [] => some []
  | d :: rest =>
    if slot_alive rt d then
      match decoded_object rt d, decoded_slots rt rest with
      | some x, some xs => some (x :: xs)
      | _, _ => Option.none
    else Option.none
/-- The entries a reader finds in a decoded dict. -/
def decoded_entries (rt : Runtime) : List (String × Decoded) → Option (List (PyObj × PyObj))
  | [] => some []
  | (k, d) :: rest =>
    match decoded_object rt d, decoded_entries rt rest with
    | some x, some xs => some ((PyObj.str k, x) :: xs)
    | _, _ => Option.none
end

/-- The call `nb::cast<number_integer_t>(obj)` on a Python int: the value when
it fits `int64_t`, otherwise the cast throws (here `none`). -/
def cast_number_integer (n : Int) : Option Int :=
  if -(2 : Int) ^ 63 ≤ n ∧ n < (2 : Int) ^ 63 then some n else none

/-- The implicit conversion of an `int64_t` to `number_unsigned_t`. -/
def to_number_unsigned (s : Int) : Nat := (s % (2 : Int) ^ 64).toNat

/-- Text that opens the message of the range error (line 134). -/
def range_msg : String :=
  "to_json received an integer out of range for both number_integer_t and number_unsigned_t type: "

/-- Text that opens the message of the key error (line 173). -/
def key_msg : String := "JSON keys must be str, int, float, bool, or None, not "

/-- The integer branch of `to_json` (lines 112-136) for an object that passed
`PyLong_Check`: two guarded attempts, each exception swallowed by
`catch (...)`, then the range error, whose message needs `nb::repr(obj)`
first. Both attempts cast to `number_integer_t`; `nb::int_(x).equal(obj)`
compares by value. -/
def to_json_int (rt : Runtime) (obj : PyObj) : Except PyErr Json :=
  let first : Option Json :=
    match cast_number_integer (int_value obj) with
    | some s => if s = int_value obj then some (.number_integer s) else Option.none
    | Option.none => Option.none
  match first with
  | some j => .ok j
  | Option.none =>
    let second : Option Json :=
      match cast_number_integer (int_value obj) with
      | some s =>
        let u := to_number_unsigned s
        if (u : Int) = int_value obj then some (.number_unsigned u) else Option.none
      | Option.none => Option.none
    match second with
    | some j => .ok j
    | Option.none =>
      match repr rt obj with
      | .error e => .error e
      | .ok text => .error (.value_error (range_msg ++ text))

/-- The condition of the `else if` of lines 168-169, evaluated left to right
with short-circuit: the three template checks, then the two-argument
`nb::isinstance(key, nb::none())`, which can throw. -/
def key_is_coercible (rt : Runtime) (key : PyObj) : Except PyErr Bool :=
  if isinstance_int key || isinstance_float key || isinstance_bool key then .ok true
  else isinstance_none rt key

mutual
/-- Embedding of `pyjson::to_json` (lines 100-184) on a non-null handle: the
chain of checks in source order, first match wins. -/
def to_json (rt : Runtime) (obj : PyObj) : Except PyErr Json :=
  if is_none obj then .ok .null
  else if isinstance_bool obj then .ok (.boolean (cast_bool obj))
  else if isinstance_int obj then to_json_int rt obj
  else if isinstance_float obj then .ok (.number_float (cast_double obj))
  else if isinstance_str obj then .ok (.string (cast_string obj))
  else if isinstance_tuple obj || isinstance_list obj then
    match obj with
    | .tuple elems => (to_json_seq rt elems []).map Json.array
    | .list elems => (to_json_seq rt elems []).map Json.array
    | _ => .ok (.array [])
  else if isinstance_dict obj then
    match obj with
    | .dict entries => (to_json_dict rt entries []).map Json.object
    | _ => .ok (.object [])
  else
    .error (.type_error ("Object of type " ++ type_name obj ++ " is not JSON serializable"))
/-- The sequence loop of `to_json` (lines 153-158), run on the elements still
to visit and the array built so far; `push_back` appends. -/
def to_json_seq (rt : Runtime) : List PyObj → List Json → Except PyErr (List Json)
  | [], out => .ok out
  | value :: rest, out =>
    match to_json rt value with
    | .error e => .error e
    | .ok j => to_json_seq rt rest (out ++ [j])
/-- The mapping loop of `to_json` (lines 162-178), run on the entries still to
visit and the object built so far. Iteration hands out each key of the dict
in order and `obj[key]` is the value stored with it. A key that passes
`PyUnicode_Check` is used verbatim (line 166); any other key goes through the
condition of lines 168-169 before anything else. In the assignment of line
171 the right-hand side `to_json(obj[key])` is evaluated before
`nb::str(key)` on the left. -/
def to_json_dict (rt : Runtime) :
    List (PyObj × PyObj) → List (String × Json) → Except PyErr (List (String × Json))
  | [], out => .ok out
  | (key, value) :: rest, out =>
    match key with
    | .str s =>
      match to_json rt value with
      | .error e => .error e
      | .ok j => to_json_dict rt rest (json_setitem out s j)
    | _ =>
      match key_is_coercible rt key with
      | .error e => .error e
      | .ok true =>
        match to_json rt value with
        | .error e => .error e
        | .ok j =>
          match str rt key with
          | .error e => .error e
          | .ok k => to_json_dict rt rest (json_setitem out k j)
      | .ok false =>
        match repr rt key with
        | .error e => .error e
        | .ok text => .error (.type_error (key_msg ++ text))
end

/-- The entry of `to_json` on a handle that may be null (line 102): a null
pointer is encoded like `None`. -/
def to_json_handle (rt : Runtime) : Option PyObj → Except PyErr Json
  | Option.none => .ok .null
  | some obj => to_json rt obj

/-- The call `to_json(from_json(j))` seen from the decoded graph `d`: `to_json`
applied to the object the graph is. When the graph has a slot that points at
freed memory no outcome is given (`none`): a traversal that reaches the slot
reads freed memory. -/
def to_json_decoded (rt : Runtime) (d : Decoded) : Option (Except PyErr Json) :=
  (decoded_object rt d).map (to_json rt)

/-- A runtime on which the functions can be evaluated, with the digit limit,
the limit message and the small-int cache of CPython 3.11; the texts it gives
for floats and for other objects are placeholders, and the empty string
stands for the strings it shares. -/
def sample_runtime : Runtime where
  float_repr := fun f => "float#" ++ toString f.bits
  object_repr := fun _ => .ok "<object>"
  isinstance_arg2_msg := "isinstance() arg 2 must be a type, a tuple of types, or a union"
  int_max_str_digits := 4300
  int_max_str_digits_ok := Or.inr (by decide)
  int_max_str_digits_msg :=
    "Exceeds the limit (4300 digits) for integer string conversion; use sys.set_int_max_str_digits() to increase the limit"
  int_is_cached := fun n => decide (-5 ≤ n ∧ n ≤ 256)
  str_is_cached := fun s => decide (s.length = 0)

/-- The error indicator of the Python runtime when it is set: the pending
exception, with the name of its type and its message. -/
structure PyExc where
  excType : String
  msg : String
  deriving DecidableEq, Repr

/-- What `type_caster<wpi::json>::from_python` can change: the caster's member
`value` and the runtime's error indicator. -/
structure CasterState where
  value : Json
  pending : Option PyExc

/-- Embedding of `type_caster<wpi::json>::from_python` (lines 246-267): the
returned flag and the state afterwards. `PyErr_SetString` sets the error
indicator to the given exception type and message; `python_error::restore`
hands the exception the `python_error` carries back to the runtime. -/
def from_python (rt : Runtime) (src : Option PyObj) (st : CasterState) : Bool × CasterState :=
  match to_json_handle rt src with
  | .ok j => (true, { st with value := j })
  | .error (.value_error what) => (false, { st with pending := some ⟨"ValueError", what⟩ })
  | .error (.type_error what) => (false, { st with pending := some ⟨"TypeError", what⟩ })
  | .error (.python_error excType msg) => (false, { st with pending := some ⟨excType, msg⟩ })

mutual
/-- Whether the test `p` holds at every node of a JSON tree, at any depth. -/
def all_nodes (p : Json → Bool) : Json → Bool
  | .array elems => p (.array elems) && all_nodes_array p elems
  | .object members => p (.object members) && all_nodes_members p members
  | j => p j
/-- Whether `p` holds at every node of every tree of a list. -/
def all_nodes_array (p : Json → Bool) : List Json → Bool
  | [] => true
  | j :: rest => all_nodes p j && all_nodes_array p rest
/-- Whether `p` holds at every node of every member value of an object. -/
def all_nodes_members (p : Json → Bool) : List (String × Json) → Bool
  | [] => true
  | (_, j) :: rest => all_nodes p j && all_nodes_members p rest
end

/-- A node that is not an unsigned-integer node and, when it is a
signed-integer node, holds a value of `int64_t`. -/
def node_signed : Json → Bool
  | .number_unsigned _ => false
  | .number_integer n => decide (-(2 : Int) ^ 63 ≤ n ∧ n < (2 : Int) ^ 63)
  | _ => true

/-- The invariants of a `wpi::json` node that the type `Json` does not enforce
by itself: an unsigned payload is a `uint64_t`, a signed payload an
`int64_t`, and the keys of an object are pairwise distinct. -/
def node_valid : Json → Bool
  | .number_unsigned n => decide (n < 2 ^ 64)
  | .number_integer n => decide (-(2 : Int) ^ 63 ≤ n ∧ n < (2 : Int) ^ 63)
  | .object members => decide (members.map Prod.fst).Nodup
  | _ => true

/-- An unsigned-integer node whose value is at most 2^63 - 1; any other node
passes. -/
def node_unsigned_small : Json → Bool
  | .number_unsigned n => decide (n ≤ 2 ^ 63 - 1)
  | _ => true

mutual
/-- The tree with every unsigned-integer node replaced by the signed-integer
node of the same value; everything else, order included, is kept. -/
def retag : Json → Json
  | .number_unsigned n => .number_integer (n : Int)
  | .array elems => .array (retag_array elems)
  | .object members => .object (retag_members members)
  | j => j
/-- The trees of a list retagged, in order. -/
def retag_array : List Json → List Json
  | [] => []
  | j :: rest => retag j :: retag_array rest
/-- The member values of an object retagged, keys and order kept. -/
def retag_members : List (String × Json) → List (String × Json)
  | [] => []
  | (k, j) :: rest => (k, retag j) :: retag_members rest
end

/-! ## Unfolding of `to_json` per kind of object -/

theorem to_json_int_eq (rt : Runtime) (n : Int) :
    to_json rt (.int n) = to_json_int rt (.int n) := rfl

theorem to_json_tuple_eq (rt : Runtime) (elems : List PyObj) :
    to_json rt (.tuple elems) = (to_json_seq rt elems []).map Json.array := rfl

theorem to_json_list_eq (rt : Runtime) (elems : List PyObj) :
    to_json rt (.list elems) = (to_json_seq rt elems []).map Json.array := rfl

theorem to_json_dict_eq (rt : Runtime) (entries : List (PyObj × PyObj)) :
    to_json rt (.dict entries) = (to_json_dict rt entries []).map Json.object := rfl

theorem cast_number_integer_of_fits (n : Int) (h₁ : -(2 : Int) ^ 63 ≤ n) (h₂ : n < (2 : Int) ^ 63) :
    cast_number_integer n = some n := by
  unfold cast_number_integer
  rw [if_pos ⟨h₁, h₂⟩]

theorem cast_number_integer_of_not_fits (n : Int) (h : n < -(2 : Int) ^ 63 ∨ (2 : Int) ^ 63 ≤ n) :
    cast_number_integer n = Option.none := by
  unfold cast_number_integer
  rw [if_neg]
  intro hc
  rcases h with h | h <;> omega

/-! ## The digit limit of the runtime -/

/-- An int of at most 20 digits is never refused: the limit is off or at
least 640. -/
theorem int_str_refused_of_lt_20 (rt : Runtime) (n : Int) (h : n.natAbs < 10 ^ 20) :
    int_str_refused rt n = false := by
  unfold int_str_refused
  rcases rt.int_max_str_digits_ok with h0 | h640
  · rw [h0]
    rfl
  · have hpow : 10 ^ 20 ≤ 10 ^ rt.int_max_str_digits :=
      Nat.pow_le_pow_right (by decide) (le_trans (by decide) h640)
    have hnot : ¬ (10 ^ rt.int_max_str_digits ≤ n.natAbs) :=
      fun hle => absurd (lt_of_lt_of_le h (le_trans hpow hle)) (lt_irrefl _)
    rw [decide_eq_false hnot, Bool.and_false]

theorem repr_int_of_not_refused (rt : Runtime) (n : Int) (h : int_str_refused rt n = false) :
    repr rt (.int n) = .ok (toString n) := by
  simp only [repr, h, Bool.false_eq_true, if_false]

theorem repr_int_of_refused (rt : Runtime) (n : Int) (h : int_str_refused rt n = true) :
    repr rt (.int n) = .error (.python_error "ValueError" rt.int_max_str_digits_msg) := by
  simp only [repr, h, if_true]

/-- A power of ten with at least as many zeros as the limit, when the limit is
on, is refused. -/
theorem int_str_refused_pow (rt : Runtime) (k : Nat) (hon : rt.int_max_str_digits ≠ 0)
    (hk : rt.int_max_str_digits ≤ k) : int_str_refused rt ((10 : Int) ^ k) = true := by
  have h10 : Int.natAbs 10 = 10 := rfl
  have hle : 10 ^ rt.int_max_str_digits ≤ ((10 : Int) ^ k).natAbs := by
    rw [Int.natAbs_pow, h10]
    exact Nat.pow_le_pow_right (by decide) hk
  unfold int_str_refused
  rw [decide_eq_true hle, Bool.and_true]
  simpa using hon

/-- With the limit of 4300 digits the runtime refuses the int 10^5000. -/
theorem int_str_refused_sample : int_str_refused sample_runtime ((10 : Int) ^ 5000) = true :=
  int_str_refused_pow sample_runtime 5000 (by decide) (by decide)

theorem int_pow_5000_large : (10 : Int) ^ 5000 > (2 : Int) ^ 64 - 1 :=
  lt_of_lt_of_le (by norm_num : (2 : Int) ^ 64 - 1 < 10 ^ 20)
    (pow_le_pow_right₀ (by norm_num) (by norm_num))

/-- When the cast to `number_integer_t` throws, both attempts are skipped and
the outcome is decided by `nb::repr`: its error, or the range error with its
text. -/
theorem to_json_int_of_not_fits (rt : Runtime) (n : Int)
    (h : n < -(2 : Int) ^ 63 ∨ (2 : Int) ^ 63 ≤ n) :
    to_json rt (.int n) =
      match repr rt (.int n) with
      | .error e => .error e
      | .ok text => .error (.value_error (range_msg ++ text)) := by
  rw [to_json_int_eq]
  simp only [to_json_int, int_value, cast_number_integer_of_not_fits n h]

/-- An int outside `int64_t` with at most 20 digits gives the range error with
its decimal text. -/
theorem to_json_int_range_error (rt : Runtime) (n : Int)
    (h : n < -(2 : Int) ^ 63 ∨ (2 : Int) ^ 63 ≤ n) (hsmall : n.natAbs < 10 ^ 20) :
    to_json rt (.int n) = .error (.value_error (range_msg ++ toString n)) := by
  rw [to_json_int_of_not_fits rt n h,
    repr_int_of_not_refused rt n (int_str_refused_of_lt_20 rt n hsmall)]

/-- An int that fits `int64_t` is returned by the first attempt as a
signed-integer node. -/
theorem to_json_int_of_fits (rt : Runtime) (n : Int)
    (h₁ : -(2 : Int) ^ 63 ≤ n) (h₂ : n < (2 : Int) ^ 63) :
    to_json rt (.int n) = .ok (.number_integer n) := by
  rw [to_json_int_eq]
  simp only [to_json_int, int_value, cast_number_integer_of_fits n h₁ h₂, if_true]

/-! ## Integer lanes -/

/-- C1: the largest unsigned 64-bit value, 18446744073709551615, is not encoded
as an unsigned-integer node, and neither is 9223372036854775808, the smallest
value above the signed lane: the second attempt casts to `number_integer_t`
again, the cast throws, and `to_json` raises the range error. -/
theorem to_json_uint64_max (rt : Runtime) :
    to_json rt (.int 18446744073709551615)
      = .error (.value_error
          "to_json received an integer out of range for both number_integer_t and number_unsigned_t type: 18446744073709551615") ∧
    to_json rt (.int 9223372036854775808)
      = .error (.value_error
          "to_json received an integer out of range for both number_integer_t and number_unsigned_t type: 9223372036854775808") :=
  ⟨to_json_int_range_error rt 18446744073709551615 (Or.inr (by decide)) (by decide),
   to_json_int_range_error rt 9223372036854775808 (Or.inr (by decide)) (by decide)⟩

/-- C2: the unsigned-integer node 18446744073709551615 decodes to the Python int
of that value, and encoding that int fails with the range error, so decoding
followed by encoding does not give the tree back. -/
theorem roundtrip_uint64_max_fails (rt : Runtime) :
    from_json (.number_unsigned 18446744073709551615) = .int 18446744073709551615 ∧
    decoded_object rt (from_json (.number_unsigned 18446744073709551615))
      = some (.int 18446744073709551615) ∧
    to_json_decoded rt (from_json (.number_unsigned 18446744073709551615))
      = some (.error (.value_error
          "to_json received an integer out of range for both number_integer_t and number_unsigned_t type: 18446744073709551615")) :=
  ⟨rfl, rfl,
    congrArg some
      (to_json_int_range_error rt 18446744073709551615 (Or.inr (by decide)) (by decide))⟩

/-- C3: for a Python int below -2^63 or above 2^64 - 1 the outcome of `to_json`
is decided by `nb::repr`. When the runtime writes the int in decimal,
`to_json` raises `value_error` and the message is the fixed text followed by
that `repr`; when the int has more digits than the runtime's limit, `repr`
raises `ValueError` and `to_json` leaves with that `python_error`. Either
way `to_json` fails. -/
theorem to_json_int_out_of_range (rt : Runtime) (n : Int)
    (h : n < -(2 : Int) ^ 63 ∨ n > (2 : Int) ^ 64 - 1) :
    (int_str_refused rt n = false →
      repr rt (.int n) = .ok (toString n) ∧
      to_json rt (.int n) = .error (.value_error (range_msg ++ toString n))) ∧
    (int_str_refused rt n = true →
      repr rt (.int n) = .error (.python_error "ValueError" rt.int_max_str_digits_msg) ∧
      to_json rt (.int n) = .error (.python_error "ValueError" rt.int_max_str_digits_msg)) ∧
    (∀ j, to_json rt (.int n) ≠ .ok j) := by
  have hfit : n < -(2 : Int) ^ 63 ∨ (2 : Int) ^ 63 ≤ n := by
    rcases h with h | h
    · exact Or.inl h
    · right
      omega
  have hto := to_json_int_of_not_fits rt n hfit
  refine ⟨?_, ?_, ?_⟩
  · intro href
    have hrepr := repr_int_of_not_refused rt n href
    rw [hrepr] at hto
    exact ⟨hrepr, hto⟩
  · intro href
    have hrepr := repr_int_of_refused rt n href
    rw [hrepr] at hto
    exact ⟨hrepr, hto⟩
  · intro j hj
    rw [hto] at hj
    cases hr : repr rt (.int n) with
    | error e => rw [hr] at hj; cases hj
    | ok text => rw [hr] at hj; cases hj

theorem to_json_int_out_of_range_witness :
    ((18446744073709551616 : Int) < -(2 : Int) ^ 63
        ∨ (18446744073709551616 : Int) > (2 : Int) ^ 64 - 1) ∧
    int_str_refused sample_runtime 18446744073709551616 = false ∧
    to_json sample_runtime (.int 18446744073709551616)
      = .error (.value_error (range_msg ++ "18446744073709551616")) :=
  ⟨Or.inr (by decide),
    int_str_refused_of_lt_20 sample_runtime 18446744073709551616 (by decide),
    ((to_json_int_out_of_range sample_runtime 18446744073709551616 (Or.inr (by decide))).1
      (int_str_refused_of_lt_20 sample_runtime 18446744073709551616 (by decide))).2⟩

/-- C3, as first stated: 10^5000 is above 2^64 - 1, yet `to_json` does not fail
with `value_error`: under the limit of 4300 digits `nb::repr` raises while
the message is being built, and `to_json` leaves with `python_error`. -/
theorem to_json_int_huge_counterexample :
    (10 : Int) ^ 5000 > (2 : Int) ^ 64 - 1 ∧
    to_json sample_runtime (.int ((10 : Int) ^ 5000))
      = .error (.python_error "ValueError" sample_runtime.int_max_str_digits_msg) ∧
    ∀ m, to_json sample_runtime (.int ((10 : Int) ^ 5000)) ≠ .error (.value_error m) := by
  have hfit : (10 : Int) ^ 5000 < -(2 : Int) ^ 63 ∨ (2 : Int) ^ 63 ≤ (10 : Int) ^ 5000 := by
    right
    have := int_pow_5000_large
    omega
  have hto : to_json sample_runtime (.int ((10 : Int) ^ 5000))
      = .error (.python_error "ValueError" sample_runtime.int_max_str_digits_msg) := by
    rw [to_json_int_of_not_fits sample_runtime _ hfit,
      repr_int_of_refused sample_runtime _ int_str_refused_sample]
  refine ⟨int_pow_5000_large, hto, ?_⟩
  intro m hm
  rw [hto] at hm
  cases hm

/-- C4: a Python int in [-2^63, 2^63 - 1] is encoded as the signed-integer node
holding that value, also when it is non-negative. -/
theorem to_json_int_signed (rt : Runtime) (n : Int)
    (h₁ : -(2 : Int) ^ 63 ≤ n) (h₂ : n ≤ (2 : Int) ^ 63 - 1) :
    to_json rt (.int n) = .ok (.number_integer n) := by
  have hc : cast_number_integer n = some n :=
    cast_number_integer_of_fits n h₁ (by omega)
  rw [to_json_int_eq]
  simp only [to_json_int, int_value, hc, if_true]

theorem to_json_int_signed_witness :
    to_json sample_runtime (.int 9223372036854775807) = .ok (.number_integer 9223372036854775807) ∧
    to_json sample_runtime (.int 0) = .ok (.number_integer 0) ∧
    to_json sample_runtime (.int (-9223372036854775808))
      = .ok (.number_integer (-9223372036854775808)) :=
  ⟨to_json_int_signed sample_runtime 9223372036854775807 (by decide) (by decide),
   to_json_int_signed sample_runtime 0 (by decide) (by decide),
   to_json_int_signed sample_runtime (-9223372036854775808) (by decide) (by decide)⟩

/-! ## Dispatch -/

/-- C7: an object that is not `None` and passes none of the checks for bool,
int, float, str, tuple, list and dict makes `to_json` raise `type_error` with
the message "Object of type " + `__name__` of its type + " is not JSON
serializable". -/
theorem to_json_unsupported (rt : Runtime) (obj : PyObj)
    (h_none : is_none obj = false) (h_bool : isinstance_bool obj = false)
    (h_int : isinstance_int obj = false) (h_float : isinstance_float obj = false)
    (h_str : isinstance_str obj = false) (h_tuple : isinstance_tuple obj = false)
    (h_list : isinstance_list obj = false) (h_dict : isinstance_dict obj = false) :
    to_json rt obj
      = .error (.type_error ("Object of type " ++ type_name obj ++ " is not JSON serializable")) := by
  cases obj <;> simp_all [is_none, isinstance_bool, isinstance_int, isinstance_float,
    isinstance_str, isinstance_tuple, isinstance_list, isinstance_dict]
  rfl

theorem to_json_unsupported_witness :
    to_json sample_runtime (.other "set" 0)
      = .error (.type_error "Object of type set is not JSON serializable") :=
  to_json_unsupported sample_runtime (.other "set" 0) rfl rfl rfl rfl rfl rfl rfl rfl

/-- C8: a Python bool passes the int check as well, and the int branch would
turn it into the number 1 or 0; `to_json` tests for bool first and returns
the JSON boolean, which is neither kind of integer node. -/
theorem to_json_bool (rt : Runtime) (b : Bool) :
    isinstance_int (.bool b) = true ∧
    to_json_int rt (.bool b) = .ok (.number_integer (if b then 1 else 0)) ∧
    to_json rt (.bool b) = .ok (.boolean b) ∧
    (∀ n : Int, to_json rt (.bool b) ≠ .ok (.number_integer n)) ∧
    (∀ n : Nat, to_json rt (.bool b) ≠ .ok (.number_unsigned n)) := by
  refine ⟨rfl, ?_, rfl, ?_, ?_⟩
  · cases b <;> rfl
  · intro n h
    have h2 : (Except.ok (Json.boolean b) : Except PyErr Json) = .ok (.number_integer n) := h
    cases h2
  · intro n h
    have h2 : (Except.ok (Json.boolean b) : Except PyErr Json) = .ok (.number_unsigned n) := h
    cases h2

/-! ## Sequences -/

/-- The sequence loop only ever appends to the array built so far. -/
theorem to_json_seq_ok (rt : Runtime) :
    ∀ (elems : List PyObj) (out : List Json),
      (∀ x ∈ elems, ∃ j, to_json rt x = .ok j) →
      ∃ js, to_json_seq rt elems out = .ok (out ++ js) ∧
        List.Forall₂ (fun x j => to_json rt x = .ok j) elems js := by
  intro elems
  induction elems with
  | nil =>
    intro out _
    exact ⟨[], by simp [to_json_seq], List.Forall₂.nil⟩
  | cons x rest ih =>
    intro out h
    obtain ⟨j, hj⟩ := h x (List.mem_cons_self x rest)
    obtain ⟨js, hjs, hall⟩ := ih (out ++ [j]) (fun y hy => h y (List.mem_cons_of_mem x hy))
    refine ⟨j :: js, ?_, List.Forall₂.cons hj hall⟩
    rw [to_json_seq, hj]
    simpa using hjs

/-- C10: when every element of a list or tuple encodes, `to_json` returns an
array of the same length whose node `i` is the encoding of element `i`, and
the list and the tuple with these elements give the same array. -/
theorem to_json_sequence (rt : Runtime) (elems : List PyObj)
    (h : ∀ x ∈ elems, ∃ j, to_json rt x = .ok j) :
    ∃ js : List Json,
      to_json rt (.list elems) = .ok (.array js) ∧
      to_json rt (.tuple elems) = .ok (.array js) ∧
      js.length = elems.length ∧
      ∀ (i : Nat) (h₁ : i < elems.length) (h₂ : i < js.length),
        to_json rt elems[i] = .ok js[i] := by
  obtain ⟨js, hjs, hall⟩ := to_json_seq_ok rt elems [] h
  rw [List.nil_append] at hjs
  refine ⟨js, ?_, ?_, hall.length_eq.symm, ?_⟩
  · rw [to_json_list_eq, hjs]; rfl
  · rw [to_json_tuple_eq, hjs]; rfl
  · intro i h₁ h₂
    exact hall.get h₁ h₂

theorem to_json_sequence_witness :
    ∃ js : List Json,
      to_json sample_runtime (.list [.int 1, .str "a", .tuple [.none]]) = .ok (.array js) ∧
      to_json sample_runtime (.tuple [.int 1, .str "a", .tuple [.none]]) = .ok (.array js) ∧
      js.length = [PyObj.int 1, .str "a", .tuple [.none]].length ∧
      ∀ (i : Nat) (h₁ : i < [PyObj.int 1, .str "a", .tuple [.none]].length) (h₂ : i < js.length),
        to_json sample_runtime [PyObj.int 1, .str "a", .tuple [.none]][i] = .ok js[i] :=
  to_json_sequence sample_runtime [.int 1, .str "a", .tuple [.none]] (by
    intro x hx
    simp only [List.mem_cons, List.mem_singleton, List.not_mem_nil, or_false] at hx
    rcases hx with rfl | rfl | rfl
    · exact ⟨_, rfl⟩
    · exact ⟨_, rfl⟩
    · exact ⟨_, rfl⟩)

/-- Once an element fails after a prefix of elements that encode, the sequence
loop stops with that element's error, whatever follows. -/
theorem to_json_seq_error_of_split (rt : Runtime) (x : PyObj) (post : List PyObj) (e : PyErr)
    (hx : to_json rt x = .error e) :
    ∀ (pre : List PyObj) (out : List Json), (∀ y ∈ pre, ∃ j, to_json rt y = .ok j) →
      to_json_seq rt (pre ++ x :: post) out = .error e := by
  intro pre
  induction pre with
  | nil =>
    intro out _
    rw [List.nil_append, to_json_seq, hx]
  | cons y rest ih =>
    intro out h
    obtain ⟨j, hj⟩ := h y (List.mem_cons_self y rest)
    rw [List.cons_append, to_json_seq, hj]
    exact ih (out ++ [j]) (fun z hz => h z (List.mem_cons_of_mem y hz))

/-- An error of the sequence loop is the error of an element all of whose
predecessors encode. -/
theorem to_json_seq_split_of_error (rt : Runtime) (e : PyErr) :
    ∀ (elems : List PyObj) (out : List Json), to_json_seq rt elems out = .error e →
      ∃ pre x post, elems = pre ++ x :: post ∧
        (∀ y ∈ pre, ∃ j, to_json rt y = .ok j) ∧ to_json rt x = .error e := by
  intro elems
  induction elems with
  | nil =>
    intro out h
    rw [to_json_seq] at h
    cases h
  | cons y rest ih =>
    intro out h
    rw [to_json_seq] at h
    cases hy : to_json rt y with
    | error e' =>
      rw [hy] at h
      have he : e' = e := by injection h
      exact ⟨[], y, rest, rfl, (fun _ hz => by cases hz), he ▸ hy⟩
    | ok j =>
      rw [hy] at h
      obtain ⟨pre, x, post, hsplit, hpre, hx⟩ := ih (out ++ [j]) h
      refine ⟨y :: pre, x, post, by rw [hsplit, List.cons_append], ?_, hx⟩
      intro z hz
      rcases List.mem_cons.mp hz with hz | hz
      · exact ⟨j, hz ▸ hy⟩
      · exact hpre z hz

/-- The sequence loop returns no array when some element fails. -/
theorem to_json_seq_ne_ok (rt : Runtime) :
    ∀ (elems : List PyObj) (out : List Json),
      (∃ y ∈ elems, ∃ e, to_json rt y = .error e) → ∀ js, to_json_seq rt elems out ≠ .ok js := by
  intro elems
  induction elems with
  | nil => rintro out ⟨y, hy, _⟩; cases hy
  | cons z rest ih =>
    rintro out ⟨y, hy, e, hye⟩ js hjs
    rw [to_json_seq] at hjs
    cases hz : to_json rt z with
    | error e' => rw [hz] at hjs; cases hjs
    | ok j =>
      rw [hz] at hjs
      rcases List.mem_cons.mp hy with hyz | hyr
      · rw [hyz, hz] at hye
        cases hye
      · exact ih (out ++ [j]) ⟨y, hyr, e, hye⟩ js hjs

/-- The sequence loop fails with `e` exactly when some element fails with `e`
after a prefix of elements that all encode. -/
theorem to_json_seq_error_iff (rt : Runtime) (elems : List PyObj) (out : List Json) (e : PyErr) :
    to_json_seq rt elems out = .error e ↔
      ∃ pre x post, elems = pre ++ x :: post ∧
        (∀ y ∈ pre, ∃ j, to_json rt y = .ok j) ∧ to_json rt x = .error e := by
  constructor
  · exact to_json_seq_split_of_error rt e elems out
  · rintro ⟨pre, x, post, hsplit, hpre, hx⟩
    rw [hsplit]
    exact to_json_seq_error_of_split rt x post e hx pre out hpre

theorem except_map_error_iff {α β : Type} (f : α → β) (r : Except PyErr α) (e : PyErr) :
    r.map f = .error e ↔ r = .error e := by
  cases r with
  | error e' =>
    constructor
    · intro h
      have h2 : (Except.error e' : Except PyErr β) = .error e := h
      injection h2 with he
      rw [he]
    · intro h
      injection h with he
      rw [he]
      rfl
  | ok a =>
    constructor
    · intro h; cases h
    · intro h; cases h

/-- C11: a list or tuple fails to encode with the error `e` exactly when one of
its elements fails with `e` and every element before it encodes, so the
error is that of the first failing element and the elements after it play
no part; and it fails at all exactly when some element fails. -/
theorem sequence_first_error (rt : Runtime) (elems : List PyObj) :
    (∀ e : PyErr, to_json rt (.list elems) = .error e ↔
      ∃ pre x post, elems = pre ++ x :: post ∧
        (∀ y ∈ pre, ∃ j, to_json rt y = .ok j) ∧ to_json rt x = .error e) ∧
    (∀ e : PyErr, to_json rt (.tuple elems) = .error e ↔
      ∃ pre x post, elems = pre ++ x :: post ∧
        (∀ y ∈ pre, ∃ j, to_json rt y = .ok j) ∧ to_json rt x = .error e) ∧
    ((∃ e, to_json rt (.list elems) = .error e) ↔ ∃ x ∈ elems, ∃ e, to_json rt x = .error e) ∧
    ((∃ e, to_json rt (.tuple elems) = .error e) ↔ ∃ x ∈ elems, ∃ e, to_json rt x = .error e) := by
  have hiff : ∀ e : PyErr, (to_json_seq rt elems []).map Json.array = .error e ↔
      ∃ pre x post, elems = pre ++ x :: post ∧
        (∀ y ∈ pre, ∃ j, to_json rt y = .ok j) ∧ to_json rt x = .error e := fun e =>
    (except_map_error_iff Json.array _ e).trans (to_json_seq_error_iff rt elems [] e)
  have hany : (∃ e, (to_json_seq rt elems []).map Json.array = .error e) ↔
      ∃ x ∈ elems, ∃ e, to_json rt x = .error e := by
    constructor
    · rintro ⟨e, he⟩
      obtain ⟨pre, x, post, hsplit, _, hx⟩ := (hiff e).mp he
      exact ⟨x, by rw [hsplit]; simp, e, hx⟩
    · rintro ⟨x, hx, e, he⟩
      cases hr : to_json_seq rt elems [] with
      | error e' => exact ⟨e', rfl⟩
      | ok js => exact absurd hr (to_json_seq_ne_ok rt elems [] ⟨x, hx, e, he⟩ js)
  exact ⟨hiff, hiff, hany, hany⟩

/-! ## The caster `from_python` -/

/-- C14: `from_python` returns true exactly when `to_json` succeeds, and then
stores the result in `value`; when `to_json` throws `value_error` with
message `m` it returns false and leaves `ValueError` with message `m`
pending; when `to_json` throws `type_error` with message `m` it returns
false and leaves `TypeError` with message `m` pending. -/
theorem from_python_translation (rt : Runtime) (x : PyObj) (st : CasterState) :
    ((from_python rt (some x) st).1 = true ↔ ∃ j, to_json rt x = .ok j) ∧
    (∀ j, to_json rt x = .ok j →
      from_python rt (some x) st = (true, { st with value := j })) ∧
    (∀ m, to_json rt x = .error (.value_error m) →
      from_python rt (some x) st = (false, { st with pending := some ⟨"ValueError", m⟩ })) ∧
    (∀ m, to_json rt x = .error (.type_error m) →
      from_python rt (some x) st = (false, { st with pending := some ⟨"TypeError", m⟩ })) := by
  refine ⟨?_, ?_, ?_, ?_⟩
  · cases h : to_json rt x with
    | ok j =>
      constructor
      · intro _
        exact ⟨j, rfl⟩
      · intro _
        simp only [from_python, to_json_handle, h]
    | error e =>
      constructor
      · intro hc
        cases e <;> simp [from_python, to_json_handle, h] at hc
      · rintro ⟨_, hj⟩
        cases hj
  · intro j h
    simp only [from_python, to_json_handle, h]
  · intro m h
    simp only [from_python, to_json_handle, h]
  · intro m h
    simp only [from_python, to_json_handle, h]

theorem from_python_translation_witness :
    from_python sample_runtime (some (.int 18446744073709551616)) ⟨.null, Option.none⟩
      = (false, ⟨.null, some ⟨"ValueError", range_msg ++ "18446744073709551616"⟩⟩) ∧
    from_python sample_runtime (some (.other "set" 0)) ⟨.null, Option.none⟩
      = (false, ⟨.null, some ⟨"TypeError", "Object of type set is not JSON serializable"⟩⟩) ∧
    from_python sample_runtime (some (.list [.int 1])) ⟨.null, Option.none⟩
      = (true, ⟨.array [.number_integer 1], Option.none⟩) :=
  ⟨(from_python_translation sample_runtime (.int 18446744073709551616) ⟨.null, Option.none⟩).2.2.1
      _ (to_json_int_range_error sample_runtime 18446744073709551616 (Or.inr (by decide))
        (by decide)),
   (from_python_translation sample_runtime (.other "set" 0) ⟨.null, Option.none⟩).2.2.2 _ rfl,
   (from_python_translation sample_runtime (.list [.int 1]) ⟨.null, Option.none⟩).2.1 _ rfl⟩

/-- C15: when `to_json` throws a `python_error`, which carries an exception
raised by the runtime, `from_python` returns false and leaves that exception
pending with its own type and message; no `ValueError` or `TypeError` is
put in its place, and `value` is untouched. -/
theorem from_python_python_error (rt : Runtime) (x : PyObj) (st : CasterState)
    (excType msg : String) (h : to_json rt x = .error (.python_error excType msg)) :
    from_python rt (some x) st = (false, { st with pending := some ⟨excType, msg⟩ }) := by
  simp only [from_python, to_json_handle, h]

theorem from_python_python_error_witness :
    from_python sample_runtime (some (.dict [(.none, .int 1)])) ⟨.null, Option.none⟩
      = (false, ⟨.null, some ⟨"TypeError",
          "isinstance() arg 2 must be a type, a tuple of types, or a union"⟩⟩) :=
  from_python_python_error sample_runtime (.dict [(.none, .int 1)]) ⟨.null, Option.none⟩
    "TypeError" "isinstance() arg 2 must be a type, a tuple of types, or a union" rfl

/-! ## Keyed assignment on a JSON object -/

theorem json_setitem_fresh (key : String) (value : Json) :
    ∀ out : List (String × Json), key ∉ out.map Prod.fst →
      json_setitem out key value = out ++ [(key, value)] := by
  intro out
  induction out with
  | nil => intro _; rfl
  | cons m rest ih =>
    intro h
    obtain ⟨k, v⟩ := m
    rw [List.map_cons, List.mem_cons, not_or] at h
    have hk : k ≠ key := fun e => h.1 e.symm
    rw [json_setitem, if_neg hk, ih h.2, List.cons_append]

/-- One round of the mapping loop on a key that is str, int, float or bool,
whose `str` the runtime gives, and a value that encodes: the member `str(key)`
is assigned and the loop goes on. -/
theorem to_json_dict_step (rt : Runtime) (key value : PyObj) (rest : List (PyObj × PyObj))
    (out : List (String × Json)) (j : Json) (k : String)
    (hkey : (isinstance_str key || isinstance_int key || isinstance_float key
      || isinstance_bool key) = true)
    (hj : to_json rt value = .ok j) (hk : str rt key = .ok k) :
    to_json_dict rt ((key, value) :: rest) out
      = to_json_dict rt rest (json_setitem out k j) := by
  cases key <;>
    simp [isinstance_str, isinstance_int, isinstance_float, isinstance_bool] at hkey
  case str s =>
    have hs : s = k := by
      have h2 : (Except.ok s : Except PyErr String) = .ok k := hk
      injection h2
    simp [to_json_dict, hj, hs]
  all_goals
    simp [to_json_dict, key_is_coercible, isinstance_int, isinstance_float, isinstance_bool,
      hj, hk]

/-- A successful round of the mapping loop encoded the value and assigned it
under some key before going on. -/
theorem to_json_dict_cons_ok (rt : Runtime) (key value : PyObj) (rest : List (PyObj × PyObj))
    (out res : List (String × Json))
    (h : to_json_dict rt ((key, value) :: rest) out = .ok res) :
    ∃ k j, to_json rt value = .ok j ∧ to_json_dict rt rest (json_setitem out k j) = .ok res := by
  cases hv : to_json rt value with
  | error e =>
    exfalso
    cases key <;>
      simp [to_json_dict, key_is_coercible, isinstance_int, isinstance_float,
        isinstance_bool, isinstance_none, hv] at h
  | ok j =>
    cases hs : str rt key with
    | error e =>
      exfalso
      cases key <;>
        simp [to_json_dict, key_is_coercible, isinstance_int, isinstance_float,
          isinstance_bool, isinstance_none, hv, hs] at h
      case str s => cases hs
    | ok k =>
      refine ⟨k, j, rfl, ?_⟩
      cases key <;>
        simp [to_json_dict, key_is_coercible, isinstance_int, isinstance_float,
          isinstance_bool, isinstance_none, hv, hs] at h
      case str s =>
        have hsk : s = k := by
          have h2 : (Except.ok s : Except PyErr String) = .ok k := hs
          injection h2
        rw [← hsk]
        exact h
      all_goals exact h

/-! ## Mapping keys -/

/-- C5: a dict with the key `None` is not encoded: the last test of line 169,
`nb::isinstance(key, nb::none())`, asks the runtime whether the key is an
instance of the `None` object, the runtime raises `TypeError`, and `to_json`
fails with that `python_error` instead of writing the member `"None"`. Keys
that are int, bool or float are decided by the earlier tests of the same
condition and are written as their `str`. -/
theorem to_json_dict_none_key (rt : Runtime) :
    to_json rt (.dict [(.none, .int 1)])
      = .error (.python_error "TypeError" rt.isinstance_arg2_msg) ∧
    to_json rt (.dict [(.int 1, .int 1)]) = .ok (.object [("1", .number_integer 1)]) ∧
    to_json rt (.dict [(.bool true, .int 1)]) = .ok (.object [("True", .number_integer 1)]) ∧
    (∀ f : Double, to_json rt (.dict [(.float f, .int 1)])
      = .ok (.object [(rt.float_repr f, .number_integer 1)])) := by
  refine ⟨rfl, ?_, rfl, fun _ => rfl⟩
  have hk : str rt (.int 1) = .ok "1" :=
    repr_int_of_not_refused rt 1 (int_str_refused_of_lt_20 rt 1 (by decide))
  rw [to_json_dict_eq, to_json_dict_step rt (.int 1) (.int 1) [] [] (.number_integer 1) "1" rfl
    rfl hk]
  rfl

/-- C6: a dict with a tuple key does not reach the key error of lines 173-175:
the condition of line 169 raises first, and `to_json` fails with the
runtime's `python_error`, not with `type_error` and the text
"JSON keys must be ...". -/
theorem to_json_dict_tuple_key (rt : Runtime) :
    to_json rt (.dict [(.tuple [.int 1, .int 2], .int 1)])
      = .error (.python_error "TypeError" rt.isinstance_arg2_msg) ∧
    ∀ m : String, to_json rt (.dict [(.tuple [.int 1, .int 2], .int 1)])
      ≠ .error (.type_error m) :=
  ⟨rfl, fun _ h => by cases h⟩

theorem from_json_array_eq_map (elems : List Json) :
    from_json_array elems = elems.map from_json := by
  induction elems with
  | nil => rfl
  | cons j rest ih => rw [from_json_array, ih, List.map_cons]

/-- Assigning under a key that no entry carries appends a new entry. -/
theorem dict_setitem_fresh (key : String) (value : Decoded) :
    ∀ obj : List (String × Decoded), key ∉ obj.map Prod.fst →
      dict_setitem obj key value = obj ++ [(key, value)] := by
  intro obj
  induction obj with
  | nil => intro _; rfl
  | cons m rest ih =>
    intro h
    obtain ⟨k, v⟩ := m
    rw [List.map_cons, List.mem_cons, not_or] at h
    have hk : k ≠ key := fun e => h.1 e.symm
    rw [dict_setitem, if_neg hk, ih h.2, List.cons_append]

/-- On members with pairwise distinct keys, none of them present in the dict
built so far, the object loop appends one entry per member, in order. -/
theorem from_json_object_fresh :
    ∀ (members : List (String × Json)) (obj : List (String × Decoded)),
      (members.map Prod.fst).Nodup →
      (∀ k ∈ members.map Prod.fst, k ∉ obj.map Prod.fst) →
      from_json_object members obj
        = obj ++ members.map (fun m => (m.1, from_json m.2)) := by
  intro members
  induction members with
  | nil => intro obj _ _; simp [from_json_object]
  | cons m rest ih =>
    intro obj hnd hfresh
    obtain ⟨k, v⟩ := m
    rw [List.map_cons, List.nodup_cons] at hnd
    have hk : dict_setitem obj k (from_json v) = obj ++ [(k, from_json v)] :=
      dict_setitem_fresh k (from_json v) obj
        (hfresh k (by rw [List.map_cons]; exact List.mem_cons_self _ _))
    rw [from_json_object, hk, ih _ hnd.2]
    · simp
    · intro k' hk' hmem
      rw [List.map_append, List.mem_append] at hmem
      rcases hmem with hmem | hmem
      · exact hfresh k' (by rw [List.map_cons]; exact List.mem_cons_of_mem _ hk') hmem
      · simp only [List.map_cons, List.map_nil, List.mem_singleton] at hmem
        exact hnd.1 (hmem ▸ hk')

/-- C9: the array row of the table fails. For the JSON array `[[], 0.0]`
`from_json` returns a list whose two slots hold the addresses of the empty
list and of the float it created, but neither object is alive any more: the
only reference to each was released when the loop body ended (lines 83-84),
so the result is not a list whose elements are the decoded nodes, and
reading it is undefined. -/
theorem from_json_array_slots_freed (rt : Runtime) :
    from_json (.array [.array [], .number_float ⟨0⟩]) = .list [.list [], .float ⟨0⟩] ∧
    slot_alive rt (from_json (.array [])) = false ∧
    slot_alive rt (from_json (.number_float ⟨0⟩)) = false ∧
    decoded_object rt (from_json (.array [.array [], .number_float ⟨0⟩])) = Option.none ∧
    ∀ xs : List PyObj,
      decoded_object rt (from_json (.array [.array [], .number_float ⟨0⟩])) ≠ some (.list xs) :=
  ⟨rfl, rfl, rfl, rfl, fun _ h => by cases h⟩

/-! ## Decoding followed by encoding -/

/-- The entries read from a decoded dict carry its keys, as str objects, in
order. -/
theorem decoded_entries_keys (rt : Runtime) :
    ∀ (es : List (String × Decoded)) (xs : List (PyObj × PyObj)),
      decoded_entries rt es = some xs → xs.map Prod.fst = es.map (fun e => PyObj.str e.1) := by
  intro es
  induction es with
  | nil =>
    intro xs h
    rw [decoded_entries] at h
    injection h with h
    rw [← h]
    rfl
  | cons e rest ih =>
    intro xs h
    obtain ⟨k, d⟩ := e
    rw [decoded_entries] at h
    cases hd : decoded_object rt d with
    | none => simp [hd] at h
    | some x =>
      cases hr : decoded_entries rt rest with
      | none => simp [hd, hr] at h
      | some ys =>
        simp only [hd, hr] at h
        injection h with h
        rw [← h, List.map_cons, List.map_cons, ih ys hr]

/-- With str keys that are pairwise distinct and absent from the object built
so far, a successful mapping loop appends one member per entry, in order. -/
theorem to_json_dict_str_keys (rt : Runtime) :
    ∀ (xs : List (PyObj × PyObj)) (ks : List String) (out res : List (String × Json)),
      xs.map Prod.fst = ks.map PyObj.str →
      ks.Nodup →
      (∀ k ∈ ks, k ∉ out.map Prod.fst) →
      to_json_dict rt xs out = .ok res →
      res.map Prod.fst = out.map Prod.fst ++ ks := by
  intro xs
  induction xs with
  | nil =>
    intro ks out res hks _ _ h
    cases ks with
    | nil =>
      rw [to_json_dict] at h
      injection h with h
      rw [← h, List.append_nil]
    | cons k ks' => cases hks
  | cons x rest ih =>
    intro ks out res hks hnd hdisj h
    obtain ⟨key, value⟩ := x
    cases ks with
    | nil => cases hks
    | cons k ks' =>
      rw [List.map_cons, List.map_cons] at hks
      injection hks with hkey hrest
      have hkey' : key = PyObj.str k := hkey
      subst hkey'
      rw [List.nodup_cons] at hnd
      rw [to_json_dict] at h
      cases hv : to_json rt value with
      | error e =>
        simp only [hv] at h
        cases h
      | ok jv =>
        simp only [hv] at h
        have hfresh : k ∉ out.map Prod.fst := hdisj k (List.mem_cons_self _ _)
        rw [json_setitem_fresh k jv out hfresh] at h
        rw [ih ks' (out ++ [(k, jv)]) res hrest hnd.2 ?_ h]
        · simp
        · intro k' hk' hmem
          rw [List.map_append, List.mem_append] at hmem
          rcases hmem with hmem | hmem
          · exact hdisj k' (List.mem_cons_of_mem _ hk') hmem
          · simp only [List.map_cons, List.map_nil, List.mem_singleton] at hmem
            exact hnd.1 (hmem ▸ hk')

/-- C13: for an object with pairwise distinct keys, when encoding the decoded
object succeeds the result is an object with the same keys in the same
order. -/
theorem roundtrip_key_order (rt : Runtime) (members : List (String × Json)) (j : Json)
    (hnd : (members.map Prod.fst).Nodup)
    (h : to_json_decoded rt (from_json (.object members)) = some (.ok j)) :
    ∃ members', j = .object members' ∧ members'.map Prod.fst = members.map Prod.fst := by
  have hdec : from_json (.object members)
      = .dict (members.map (fun m => (m.1, from_json m.2))) := by
    have hf := from_json_object_fresh members [] hnd (fun _ _ hmem => by cases hmem)
    rw [from_json, hf, List.nil_append]
  rw [hdec] at h
  simp only [to_json_decoded, decoded_object] at h
  cases hes : decoded_entries rt (members.map (fun m => (m.1, from_json m.2))) with
  | none =>
    rw [hes] at h
    cases h
  | some xs =>
    rw [hes] at h
    have h1 : to_json rt (.dict xs) = .ok j := by
      have h2 : some (to_json rt (.dict xs)) = some (.ok j) := h
      injection h2
    rw [to_json_dict_eq] at h1
    cases hres : to_json_dict rt xs [] with
    | error e =>
      rw [hres] at h1
      cases h1
    | ok res =>
      rw [hres] at h1
      have hj : Json.object res = j := by
        have h2 : (Except.ok (Json.object res) : Except PyErr Json) = .ok j := h1
        injection h2
      refine ⟨res, hj.symm, ?_⟩
      have hkeys : xs.map Prod.fst = (members.map Prod.fst).map PyObj.str := by
        rw [decoded_entries_keys rt _ xs hes, List.map_map, List.map_map]
        rfl
      have hk := to_json_dict_str_keys rt xs (members.map Prod.fst) [] res hkeys hnd
        (fun _ _ hmem => by cases hmem) hres
      rw [hk, List.map_nil, List.nil_append]

theorem roundtrip_key_order_witness :
    (∃ members', Json.object [("a", .number_integer 1), ("b", .number_integer 2),
        ("c", .number_integer 3)] = .object members' ∧
      members'.map Prod.fst
        = [("a", Json.number_unsigned 1), ("b", Json.number_unsigned 2),
            ("c", Json.number_unsigned 3)].map Prod.fst) ∧
    [("a", Json.number_unsigned 1), ("b", Json.number_unsigned 2),
      ("c", Json.number_unsigned 3)].map Prod.fst = ["a", "b", "c"] :=
  ⟨roundtrip_key_order sample_runtime
      [("a", .number_unsigned 1), ("b", .number_unsigned 2), ("c", .number_unsigned 3)]
      (.object [("a", .number_integer 1), ("b", .number_integer 2), ("c", .number_integer 3)])
      (by decide) rfl,
    rfl⟩

/-! ## Empty containers -/

/-- C16: the empty array decodes to the empty list and that list encodes to the
empty array; the empty object decodes to the empty dict and that dict
encodes to the empty object; neither result is null, and the two are not
exchanged. -/
theorem empty_containers (rt : Runtime) :
    from_json (.array []) = .list [] ∧
    decoded_object rt (from_json (.array [])) = some (.list []) ∧
    to_json_decoded rt (from_json (.array [])) = some (.ok (.array [])) ∧
    from_json (.object []) = .dict [] ∧
    decoded_object rt (from_json (.object [])) = some (.dict []) ∧
    to_json_decoded rt (from_json (.object [])) = some (.ok (.object [])) ∧
    to_json_decoded rt (from_json (.array [])) ≠ some (.ok .null) ∧
    to_json_decoded rt (from_json (.object [])) ≠ some (.ok .null) ∧
    to_json_decoded rt (from_json (.array [])) ≠ some (.ok (.object [])) ∧
    to_json_decoded rt (from_json (.object [])) ≠ some (.ok (.array [])) := by
  refine ⟨rfl, rfl, rfl, rfl, rfl, rfl, ?_, ?_, ?_, ?_⟩
  · intro h
    have h2 : some (Except.ok (Json.array []) : Except PyErr Json) = some (.ok .null) := h
    cases h2
  · intro h
    have h2 : some (Except.ok (Json.object []) : Except PyErr Json) = some (.ok .null) := h
    cases h2
  · intro h
    have h2 : some (Except.ok (Json.array []) : Except PyErr Json) = some (.ok (.object [])) := h
    cases h2
  · intro h
    have h2 : some (Except.ok (Json.object []) : Except PyErr Json) = some (.ok (.array [])) := h
    cases h2

/-! ## Integer nodes that `to_json` emits -/

theorem all_nodes_array_snoc (p : Json → Bool) (j : Json) :
    ∀ out : List Json, all_nodes_array p out = true → all_nodes p j = true →
      all_nodes_array p (out ++ [j]) = true := by
  intro out
  induction out with
  | nil =>
    intro _ hj
    simp [all_nodes_array, hj]
  | cons x rest ih =>
    intro h hj
    simp only [all_nodes_array, Bool.and_eq_true] at h
    simp only [List.cons_append, all_nodes_array, Bool.and_eq_true]
    exact ⟨h.1, ih h.2 hj⟩

theorem all_nodes_members_setitem (p : Json → Bool) (key : String) (j : Json) :
    ∀ out : List (String × Json), all_nodes_members p out = true → all_nodes p j = true →
      all_nodes_members p (json_setitem out key j) = true := by
  intro out
  induction out with
  | nil =>
    intro _ hj
    simp [json_setitem, all_nodes_members, hj]
  | cons m rest ih =>
    intro h hj
    obtain ⟨k, v⟩ := m
    simp only [all_nodes_members, Bool.and_eq_true] at h
    rw [json_setitem]
    by_cases hk : k = key
    · rw [if_pos hk]
      simp only [all_nodes_members, Bool.and_eq_true]
      exact ⟨hj, h.2⟩
    · rw [if_neg hk]
      simp only [all_nodes_members, Bool.and_eq_true]
      exact ⟨h.1, ih h.2 hj⟩

/-- The integer branch returns only signed-integer nodes holding an `int64_t`:
when the cast succeeds the first attempt returns, and when it throws so does
the second. -/
theorem to_json_int_node (rt : Runtime) (obj : PyObj) (j : Json)
    (h : to_json_int rt obj = .ok j) :
    ∃ n : Int, j = .number_integer n ∧ -(2 : Int) ^ 63 ≤ n ∧ n < (2 : Int) ^ 63 := by
  unfold to_json_int at h
  by_cases hfit : -(2 : Int) ^ 63 ≤ int_value obj ∧ int_value obj < (2 : Int) ^ 63
  · have hc := cast_number_integer_of_fits (int_value obj) hfit.1 hfit.2
    simp only [hc, if_true] at h
    injection h with h
    exact ⟨int_value obj, h.symm, hfit⟩
  · have hc : cast_number_integer (int_value obj) = Option.none := by
      unfold cast_number_integer
      rw [if_neg hfit]
    simp only [hc] at h
    cases hr : repr rt obj with
    | error e => rw [hr] at h; cases h
    | ok text => rw [hr] at h; cases h

mutual
/-- Every node of a tree that `to_json` returns passes `node_signed`. -/
theorem to_json_nodes_signed (rt : Runtime) :
    ∀ (x : PyObj) (j : Json), to_json rt x = .ok j → all_nodes node_signed j = true
  | .none, j, h => by
    have h2 : (Except.ok Json.null : Except PyErr Json) = .ok j := h
    injection h2 with h2
    rw [← h2]; rfl
  | .bool b, j, h => by
    have h2 : (Except.ok (Json.boolean b) : Except PyErr Json) = .ok j := h
    injection h2 with h2
    rw [← h2]; rfl
  | .int n, j, h => by
    rw [to_json_int_eq] at h
    obtain ⟨m, hm, hlo, hhi⟩ := to_json_int_node rt (.int n) j h
    rw [hm]
    simp only [all_nodes, node_signed, decide_eq_true_eq]
    exact ⟨hlo, hhi⟩
  | .float f, j, h => by
    have h2 : (Except.ok (Json.number_float f) : Except PyErr Json) = .ok j := h
    injection h2 with h2
    rw [← h2]; rfl
  | .str t, j, h => by
    have h2 : (Except.ok (Json.string t) : Except PyErr Json) = .ok j := h
    injection h2 with h2
    rw [← h2]; rfl
  | .tuple elems, j, h => by
    rw [to_json_tuple_eq] at h
    cases hs : to_json_seq rt elems [] with
    | error e => rw [hs] at h; cases h
    | ok js =>
      rw [hs] at h
      have h2 : (Except.ok (Json.array js) : Except PyErr Json) = .ok j := h
      injection h2 with h2
      have hall := to_json_seq_nodes_signed rt elems [] js rfl hs
      rw [← h2]
      simp [all_nodes, node_signed, hall]
  | .list elems, j, h => by
    rw [to_json_list_eq] at h
    cases hs : to_json_seq rt elems [] with
    | error e => rw [hs] at h; cases h
    | ok js =>
      rw [hs] at h
      have h2 : (Except.ok (Json.array js) : Except PyErr Json) = .ok j := h
      injection h2 with h2
      have hall := to_json_seq_nodes_signed rt elems [] js rfl hs
      rw [← h2]
      simp [all_nodes, node_signed, hall]
  | .dict entries, j, h => by
    rw [to_json_dict_eq] at h
    cases hs : to_json_dict rt entries [] with
    | error e => rw [hs] at h; cases h
    | ok ms =>
      rw [hs] at h
      have h2 : (Except.ok (Json.object ms) : Except PyErr Json) = .ok j := h
      injection h2 with h2
      have hall := to_json_dict_nodes_signed rt entries [] ms rfl hs
      rw [← h2]
      simp [all_nodes, node_signed, hall]
  | .other typeName ident, j, h => by
    have h2 : (Except.error (PyErr.type_error
        ("Object of type " ++ typeName ++ " is not JSON serializable")) : Except PyErr Json)
          = .ok j := h
    cases h2
/-- The sequence loop keeps `node_signed` true on all nodes of the array. -/
theorem to_json_seq_nodes_signed (rt : Runtime) :
    ∀ (elems : List PyObj) (out res : List Json), all_nodes_array node_signed out = true →
      to_json_seq rt elems out = .ok res → all_nodes_array node_signed res = true
  | [], out, res, hout, h => by
    rw [to_json_seq] at h
    injection h with h
    rw [← h]; exact hout
  | x :: rest, out, res, hout, h => by
    rw [to_json_seq] at h
    cases hx : to_json rt x with
    | error e => rw [hx] at h; cases h
    | ok j =>
      rw [hx] at h
      exact to_json_seq_nodes_signed rt rest (out ++ [j]) res
        (all_nodes_array_snoc node_signed j out hout (to_json_nodes_signed rt x j hx)) h
/-- The mapping loop keeps `node_signed` true on all nodes of the members. -/
theorem to_json_dict_nodes_signed (rt : Runtime) :
    ∀ (entries : List (PyObj × PyObj)) (out res : List (String × Json)),
      all_nodes_members node_signed out = true →
      to_json_dict rt entries out = .ok res → all_nodes_members node_signed res = true
  | [], out, res, hout, h => by
    rw [to_json_dict] at h
    injection h with h
    rw [← h]; exact hout
  | (key, value) :: rest, out, res, hout, h => by
    obtain ⟨k, j, hv, hrest⟩ := to_json_dict_cons_ok rt key value rest out res h
    exact to_json_dict_nodes_signed rt rest _ res
      (all_nodes_members_setitem node_signed k j out hout (to_json_nodes_signed rt value j hv))
      hrest
end

/-- C17: no node of a tree that `to_json` returns is an unsigned-integer node,
at any depth, and every signed-integer node in it holds a value in
[-2^63, 2^63 - 1]; in particular the result itself is never an
unsigned-integer node. -/
theorem to_json_never_unsigned (rt : Runtime) (x : PyObj) (j : Json)
    (h : to_json rt x = .ok j) :
    all_nodes node_signed j = true ∧ ∀ n : Nat, j ≠ .number_unsigned n := by
  have hall := to_json_nodes_signed rt x j h
  refine ⟨hall, ?_⟩
  intro n hn
  rw [hn] at hall
  cases hall

theorem to_json_never_unsigned_witness :
    all_nodes node_signed
        (.array [.number_integer 9223372036854775807,
          .object [("a", .array [.number_integer (-1)])]]) = true ∧
      ∀ n : Nat,
        Json.array [.number_integer 9223372036854775807,
          .object [("a", .array [.number_integer (-1)])]] ≠ .number_unsigned n :=
  to_json_never_unsigned sample_runtime
    (.list [.int 9223372036854775807, .dict [(.str "a", .tuple [.int (-1)])]])
    (.array [.number_integer 9223372036854775807, .object [("a", .array [.number_integer (-1)])]])
    rfl

/-! ## Round trip through an array -/

/-- C18: the round trip is not defined on the valid tree `[[], 0.0]`, which has
no unsigned-integer node at all: `from_json` returns a list whose slots point
at the freed empty list and the freed float (lines 83-84), so
`to_json(from_json(v))` reads freed memory and has no defined result, in
particular not the retagged tree. With the small-int cache of CPython the
same happens on a tree with the array `[9223372036854775807, -2, "x"]`. -/
theorem roundtrip_array_undefined (rt : Runtime) :
    all_nodes node_valid (.array [.array [], .number_float ⟨0⟩]) = true ∧
    all_nodes node_unsigned_small (.array [.array [], .number_float ⟨0⟩]) = true ∧
    to_json_decoded rt (from_json (.array [.array [], .number_float ⟨0⟩])) = Option.none ∧
    to_json_decoded rt (from_json (.array [.array [], .number_float ⟨0⟩]))
      ≠ some (.ok (retag (.array [.array [], .number_float ⟨0⟩]))) ∧
    all_nodes node_valid (.object [("b", .array [.number_unsigned 9223372036854775807,
        .number_integer (-2), .string "x"]), ("a", .number_float ⟨0⟩)]) = true ∧
    all_nodes node_unsigned_small (.object [("b", .array [.number_unsigned 9223372036854775807,
        .number_integer (-2), .string "x"]), ("a", .number_float ⟨0⟩)]) = true ∧
    to_json_decoded sample_runtime
      (from_json (.object [("b", .array [.number_unsigned 9223372036854775807,
        .number_integer (-2), .string "x"]), ("a", .number_float ⟨0⟩)])) = Option.none :=
  ⟨by rfl, by rfl, rfl, (fun h => by cases h), by rfl, by rfl, by rfl⟩


end pyjson
